import Mathlib

/-!
Shallow embedding of the pagination/retry core of the
`github-infinite-scroll` repository.

Two source units are embedded:

* `useInfiniteScroll` (the pagination controller): reactive refs
  `repositories`, `currentPage`, `loading`, `error`, `hasMore`,
  `totalLoaded`, `isRetrying`, `retryCount` and the operations
  `loadMore`, `retry`, `reset`, plus the derived `canRetry`.
  The refs become the fields of `ScrollState`; each operation becomes a
  pure state transformer.  The single `await fetchRepositories(...)`
  suspension point inside `loadMore` is made explicit by splitting the
  function into `loadMoreStart` (everything before the await, returning
  the captured `nextPage` when the guard passes) and `loadMoreResume`
  (the success/failure continuation); `loadMore` is their sequential
  composition, which is the semantics when nothing interleaves at the
  await.  The outcome of the awaited fetch is passed in as a
  `FetchOutcome` value.  `loadMore` also reports which page number it
  fetched (`none` = the guard failed and no fetch was issued).

* `useGitHubAPI` (the page fetcher): `validateRepository`,
  `createAPIError` and `fetchRepositories`.  JSON values coming back
  from the network are modelled by `JVal`; the network interaction
  itself (the `$fetch` call) is abstracted into a `NetResult` argument
  describing what the network would deliver, so that the pure
  classification / validation / pagination logic around it is embedded
  exactly.
-/

namespace GitHubInfiniteScroll

/-- A JSON value, as delivered by the upstream API.  Objects keep their
fields as an association list; `typeof x === 'object'` in the source is
true exactly for objects, arrays and `null`. -/
inductive JVal where
  | jnull : JVal
  | jbool (b : Bool) : JVal
  | jnum (n : Int) : JVal
  | jstr (s : String) : JVal
  | jarr (elems : List JVal) : JVal
  | jobj (fields : List (String × JVal)) : JVal
deriving Repr

/-- Property access `v[key]`: `none` models JavaScript `undefined`. -/
def JVal.get (v : JVal) (key : String) : Option JVal :=
  match v with
  | .jobj fields => fields.lookup key
  | _ => none

/-- `typeof x === 'number'` on an optional property. -/
def isNumProp : Option JVal → Bool
  | some (.jnum _) => true
  | _ => false

/-- `typeof x === 'string'` on an optional property. -/
def isStrProp : Option JVal → Bool
  | some (.jstr _) => true
  | _ => false

/-- `typeof x === 'string' || x === null` on an optional property. -/
def isStrOrNullProp : Option JVal → Bool
  | some (.jstr _) => true
  | some .jnull => true
  | _ => false

/-- `validateRepository` from `useGitHubAPI`: the repository schema
check.  The source first rejects `typeof repo !== 'object' || repo ===
null`; arrays pass that test in JavaScript but have no named properties,
so every field check then fails on them, which the `jarr` arm
reproduces. -/
def validateRepository (repo : JVal) : Bool :=
  match repo with
  | .jobj _ | .jarr _ =>
      isNumProp (repo.get "id") &&
      isStrProp (repo.get "name") &&
      isStrProp (repo.get "full_name") &&
      isStrOrNullProp (repo.get "description") &&
      isStrProp (repo.get "html_url") &&
      isStrProp (repo.get "created_at") &&
      isStrProp (repo.get "updated_at") &&
      isNumProp (repo.get "stargazers_count") &&
      isStrOrNullProp (repo.get "language")
  | _ => false

/-- The error classification tags of `APIErrorType`. -/
inductive APIErrorType where
  | validation_error
  | network_error
  | rate_limit_exceeded
  | api_error
  | unknown_error
deriving Repr, DecidableEq

/-- The relevant properties of a raw (unclassified) error object as
inspected by `createAPIError` and the catch block of
`fetchRepositories`: its optional `message`, `retryAfter`, `name` and
`code` properties. -/
structure ErrObj where
  message : Option String := none
  retryAfter : Option Int := none
  name : Option String := none
  code : Option String := none
deriving Repr, DecidableEq

/-- A structured `APIError` as built by `createAPIError` (the `details`
payload, which merely echoes the raw error, is dropped). -/
structure APIError where
  type : APIErrorType
  message : String
  statusCode : Option Int := none
  retryAfter : Option Int := none
deriving Repr, DecidableEq

/-- `errorObj.message.includes('rate limit')`. -/
def mentionsRateLimit (m : String) : Bool :=
  decide (List.IsInfix "rate limit".toList m.toList)

/-- `m || 'fallback'`: JavaScript falls back on a missing or empty
message string. -/
def messageOr (m : Option String) (fallback : String) : String :=
  match m with
  | some s => if s.isEmpty then fallback else s
  | none => fallback

/-- `createAPIError` from `useGitHubAPI`: classifies a raw error (plus
optional HTTP status code) into a structured `APIError`.  `if
(statusCode)` in the source is falsy for `0`, hence the explicit
`sc ≠ 0` test. -/
def createAPIError (e : ErrObj) (statusCode : Option Int := none) : APIError :=
  let fallThrough : APIError :=
    match statusCode with
    | some sc =>
        if sc ≠ 0 ∧ 400 ≤ sc ∧ sc < 500 then
          { type := .api_error,
            message := "Client error: " ++ messageOr e.message "Invalid request",
            statusCode := statusCode }
        else if sc ≠ 0 ∧ 500 ≤ sc then
          { type := .api_error,
            message := "Server error: " ++ messageOr e.message "Internal server error",
            statusCode := statusCode }
        else
          { type := .unknown_error, message := "An unexpected error occurred",
            statusCode := statusCode }
    | none =>
        { type := .unknown_error, message := "An unexpected error occurred" }
  match statusCode with
  | some sc =>
      if sc = 0 then
        -- a falsy status code takes the no-status branch
        if e.name = some "TypeError" ∨ e.code = some "NETWORK_ERROR" then
          { type := .network_error,
            message := "Network error. Please check your internet connection and try again.",
            statusCode := statusCode }
        else
          { type := .unknown_error, message := "An unexpected error occurred",
            statusCode := statusCode }
      else if sc = 403 then
        match e.message with
        | some m =>
            if mentionsRateLimit m then
              { type := .rate_limit_exceeded,
                message := "GitHub API rate limit exceeded. Please try again later.",
                statusCode := statusCode, retryAfter := e.retryAfter }
            else
              { type := .api_error,
                message := "Access forbidden. Please check API permissions.",
                statusCode := statusCode }
        | none =>
            { type := .api_error,
              message := "Access forbidden. Please check API permissions.",
              statusCode := statusCode }
      else if sc = 404 then
        { type := .api_error,
          message := "Repository not found or organization does not exist.",
          statusCode := statusCode }
      else if sc = 422 then
        { type := .validation_error, message := "Invalid request parameters.",
          statusCode := statusCode }
      else if sc = 500 ∨ sc = 502 ∨ sc = 503 ∨ sc = 504 then
        { type := .api_error,
          message := "GitHub API is temporarily unavailable. Please try again later.",
          statusCode := statusCode }
      else fallThrough
  | none =>
      if e.name = some "TypeError" ∨ e.code = some "NETWORK_ERROR" then
        { type := .network_error,
          message := "Network error. Please check your internet connection and try again." }
      else
        { type := .unknown_error, message := "An unexpected error occurred" }

/-- The value returned by `fetchRepositories` on success. -/
structure GitHubAPIResponse where
  data : List JVal
  hasMore : Bool
  nextPage : Option Int
  totalCount : Nat
deriving Repr

/-- What the abstracted `$fetch` call delivers: a response body, a
structured `APIError` thrown from within the request hooks, or a raw
error carrying an optional numeric `statusCode` property. -/
inductive NetResult where
  | ok (body : JVal) : NetResult
  | errAPI (e : APIError) : NetResult
  | err (e : ErrObj) (statusCode : Option Int) : NetResult
deriving Repr

/-- `fetchRepositories` from `useGitHubAPI`, with the network call
abstracted into the `net` argument.  Parameter validation happens
before any network interaction, so the validation-error result is
independent of `net`.  The catch block rethrows errors that already
carry a `type` property (our `errAPI`, and the two 422 errors built
inside the try block) and classifies raw errors with
`createAPIError`. -/
def fetchRepositories (page : Int) (perPage : Int) (net : NetResult) :
    Except APIError GitHubAPIResponse :=
  if page < 1 ∨ perPage < 1 ∨ perPage > 100 then
    .error (createAPIError { message := some "Invalid pagination parameters" } (some 422))
  else
    match net with
    | .ok body =>
        match body with
        | .jarr data =>
            let validRepositories := data.filter validateRepository
            let hasMore : Bool := (validRepositories.length : Int) == perPage
            let nextPage : Option Int := if hasMore then some (page + 1) else none
            .ok { data := validRepositories, hasMore := hasMore,
                  nextPage := nextPage, totalCount := validRepositories.length }
        | _ =>
            .error (createAPIError { message := some "Invalid API response format" } (some 422))
    | .errAPI e => .error e
    | .err e sc => .error (createAPIError e sc)

/-! ## The pagination controller (`useInfiniteScroll`) -/

/-- `maxRetries` constant. -/
def maxRetries : Nat := 3

/-- `getRetryDelay` from `useInfiniteScroll`:
`Math.min(1000 * Math.pow(2, attempt), 10000)`. -/
def getRetryDelay (attempt : Nat) : Nat :=
  min (1000 * 2 ^ attempt) 10000

/-- The reactive state of `useInfiniteScroll`, one field per ref.  The
item type is abstract (the controller never inspects repository
objects). -/
structure ScrollState (α : Type) where
  repositories : List α
  currentPage : Nat
  loading : Bool
  error : Option String
  hasMore : Bool
  totalLoaded : Nat
  isRetrying : Bool
  retryCount : Nat
deriving Repr, DecidableEq

/-- The controller's initial state for a given initial snapshot: the
initializers of the refs in `useInfiniteScroll`. -/
def initState {α : Type} (initialRepositories : List α) : ScrollState α :=
  { repositories := initialRepositories
    currentPage := 1
    loading := false
    error := none
    hasMore := true
    totalLoaded := initialRepositories.length
    isRetrying := false
    retryCount := 0 }

/-- Outcome of the awaited `fetchRepositories` call inside `loadMore`:
either it resolves with a page (`data`, `hasMore`) or it rejects with a
structured error. -/
inductive FetchOutcome (α : Type) where
  | success (data : List α) (hasMore : Bool) : FetchOutcome α
  | failure (e : APIError) : FetchOutcome α
deriving Repr

/-- The prefix of `loadMore` up to the `await`: the
`loading || !hasMore` guard, then `loading := true`, `error := null`
and the capture of `nextPage = currentPage + 1`.  Returns `none` for
the captured page when the guard failed (no fetch issued). -/
def loadMoreStart {α : Type} (s : ScrollState α) : ScrollState α × Option Nat :=
  if s.loading ∨ s.hasMore = false then
    (s, none)
  else
    ({ s with loading := true, error := none }, some (s.currentPage + 1))

/-- The continuation of `loadMore` after the `await`, for a captured
`nextPage`.  On success: append, advance the cursor, record the new
total, take over the page's `hasMore`, reset `retryCount`, and apply
the (redundant) 30-item floor override; the `finally` clears
`loading`.  On failure: store the error message and clear `loading`;
nothing else changes. -/
def loadMoreResume {α : Type} (s : ScrollState α) (nextPage : Nat)
    (outcome : FetchOutcome α) : ScrollState α :=
  match outcome with
  | .success data pageHasMore =>
      let repositories := s.repositories ++ data
      let s := { s with repositories := repositories
                        currentPage := nextPage
                        totalLoaded := repositories.length
                        hasMore := pageHasMore
                        retryCount := 0 }
      let s := if s.totalLoaded ≥ 30 ∧ pageHasMore = false then
                 { s with hasMore := false }
               else s
      { s with loading := false }
  | .failure e =>
      { s with error := some e.message, loading := false }

/-- `loadMore` run without interleaving at the await: start, then
resume with the fetch outcome.  The second component is the page number
that was fetched (`none` when the guard made the call a no-op). -/
def loadMore {α : Type} (s : ScrollState α) (outcome : FetchOutcome α) :
    ScrollState α × Option Nat :=
  match loadMoreStart s with
  | (s1, none) => (s1, none)
  | (s1, some nextPage) => (loadMoreResume s1 nextPage outcome, some nextPage)

/-- `retry` from `useInfiniteScroll`, run without interleaving: guard,
increment `retryCount`, compute the backoff delay, sleep, clear the
error, run the nested `loadMore` with the given fetch outcome, and
clear `isRetrying` in the `finally`.  (The nested `loadMore` never
rejects — its own catch block is total — so `retry`'s catch block is
dead code and is not modelled.)  Returns the new state, the backoff
delay slept (`none` when the guard made the call a no-op), and the page
number fetched by the nested `loadMore` (`none` if no fetch was
issued). -/
def retry {α : Type} (s : ScrollState α) (outcome : FetchOutcome α) :
    ScrollState α × Option Nat × Option Nat :=
  if s.isRetrying ∨ s.retryCount ≥ maxRetries then
    (s, none, none)
  else
    let s1 := { s with isRetrying := true, retryCount := s.retryCount + 1 }
    let delay := getRetryDelay (s1.retryCount - 1)
    let s2 := { s1 with error := none }
    let r := loadMore s2 outcome
    ({ r.1 with isRetrying := false }, some delay, r.2)

/-- `reset` from `useInfiniteScroll`: every ref is set back to its
initial value for the captured `initialRepositories` snapshot. -/
def reset {α : Type} (initialRepositories : List α) (_s : ScrollState α) :
    ScrollState α :=
  { repositories := initialRepositories
    currentPage := 1
    loading := false
    error := none
    hasMore := true
    totalLoaded := initialRepositories.length
    retryCount := 0
    isRetrying := false }

/-- The derived `canRetry` computed:
`error !== null && retryCount < maxRetries && !isRetrying`. -/
def canRetry {α : Type} (s : ScrollState α) : Bool :=
  s.error.isSome && decide (s.retryCount < maxRetries) && !s.isRetrying

/-! ## Concrete fixtures used by witnesses and counterexamples -/

/-- A state as found in the middle of a retry backoff delay: `retry`
has set `isRetrying := true` and `retryCount := 1` and is sleeping; the
error from the failed load is still displayed.  The status is
`Retrying`, not `Loading`, and the state is not exhausted. -/
def retryingState : ScrollState Nat :=
  { repositories := []
    currentPage := 1
    loading := false
    error := some "Network error. Please check your internet connection and try again."
    hasMore := true
    totalLoaded := 0
    isRetrying := true
    retryCount := 1 }

/-- The structured error produced for a connectivity failure
(`TypeError` from fetch, no HTTP status). -/
def networkError : APIError :=
  createAPIError { name := some "TypeError" } none

/-- State after the first of three consecutive failing `retry` calls,
starting from a fresh controller showing a network error. -/
def retryFail1 : ScrollState Nat :=
  (retry { initState [] with error := some networkError.message }
    (.failure networkError)).1

/-- State after the second consecutive failing `retry` call. -/
def retryFail2 : ScrollState Nat :=
  (retry retryFail1 (.failure networkError)).1

/-- State after the third consecutive failing `retry` call. -/
def retryFail3 : ScrollState Nat :=
  (retry retryFail2 (.failure networkError)).1

/-- A raw repository object satisfying the full schema. -/
def goodRepo : JVal :=
  .jobj [("id", .jnum 1), ("name", .jstr "repo"),
         ("full_name", .jstr "openai/repo"), ("description", .jnull),
         ("html_url", .jstr "https://example.invalid/repo"),
         ("created_at", .jstr "2020-01-01T00:00:00Z"),
         ("updated_at", .jstr "2020-01-02T00:00:00Z"),
         ("stargazers_count", .jnum 0), ("language", .jnull)]

/-- A raw object violating the schema (`id` is a string). -/
def badRepo : JVal :=
  .jobj [("id", .jstr "oops"), ("name", .jstr "repo")]

end GitHubInfiniteScroll

namespace GitHubInfiniteScroll

/-! ## Helper lemmas -/

/-- A failing `loadMore` never changes `retryCount`, whether or not the
guard let the fetch go out. -/
theorem loadMore_failure_retryCount {α : Type} (s : ScrollState α) (e : APIError) :
    (loadMore s (.failure e)).1.retryCount = s.retryCount := by
  by_cases hg : (s.loading ∨ s.hasMore = false)
  · simp [loadMore, loadMoreStart, hg]
  · simp [loadMore, loadMoreStart, hg, loadMoreResume]

/-! ## Claim theorems -/

/-- Claim C1, counterexample.  The claim states that `loadMore()` is a
no-op — no state change and no fetch — whenever the status is not
`Idle`, in particular while status is `Retrying` (during the retry
backoff delay).  From `retryingState` (status `Retrying`: `isRetrying =
true`, `loading = false`, not exhausted: `hasMore = true`), `loadMore`
does issue a fetch for page 2 and does change state (the returned
page's item is appended), because the source guard checks only
`loading || !hasMore` and never `isRetrying`. -/
theorem loadMore_not_noop_while_retrying :
    retryingState.isRetrying = true ∧
    retryingState.loading = false ∧
    retryingState.hasMore = true ∧
    (loadMore retryingState (.success [5] true)).2 = some 2 ∧
    (loadMore retryingState (.success [5] true)).1.repositories = [5] := by
  decide

/-- Claim C1, amended: `loadMore()` is a no-op — the state is returned
unchanged and no fetch is issued — whenever `loading = true` (status
`Loading`) or the state is exhausted (`hasMore = false`).  The guard
does not cover status `Retrying`: a `loadMore` during the backoff delay
proceeds (see the counterexample). -/
theorem loadMore_noop_of_loading_or_exhausted {α : Type} (s : ScrollState α)
    (outcome : FetchOutcome α) (h : s.loading = true ∨ s.hasMore = false) :
    loadMore s outcome = (s, none) := by
  rcases h with h | h <;> simp [loadMore, loadMoreStart, h]

/-- Witness for the amended C1 theorem at a concrete exhausted state. -/
theorem loadMore_noop_witness :
    loadMore { initState ([] : List Nat) with hasMore := false }
        (.success [5] true) = ({ initState ([] : List Nat) with hasMore := false }, none) :=
  loadMore_noop_of_loading_or_exhausted _ _ (Or.inr rfl)

/-- Claim C2: a successful `loadMore` (guard passed, fetch resolved)
appends the returned items — `repositories` grows by exactly the
returned item count — advances `currentPage` by exactly 1, resets
`retryCount` to 0, and returns the status to `Idle` (`loading = false`,
`isRetrying` untouched); the fetch issued is for page `currentPage + 1`.
Applied at every step of a sequence of successful loads, this gives the
claimed per-call growth of `items` and `cursor`. -/
theorem loadMore_success_effects {α : Type} (s : ScrollState α) (data : List α)
    (pm : Bool) (hl : s.loading = false) (hm : s.hasMore = true) :
    (loadMore s (.success data pm)).1.repositories.length
        = s.repositories.length + data.length ∧
    (loadMore s (.success data pm)).1.currentPage = s.currentPage + 1 ∧
    (loadMore s (.success data pm)).1.retryCount = 0 ∧
    (loadMore s (.success data pm)).1.loading = false ∧
    (loadMore s (.success data pm)).1.isRetrying = s.isRetrying ∧
    (loadMore s (.success data pm)).2 = some (s.currentPage + 1) := by
  have hstart : loadMoreStart s
      = ({ s with loading := true, error := none }, some (s.currentPage + 1)) := by
    simp [loadMoreStart, hl, hm]
  simp only [loadMore, hstart, loadMoreResume]
  split <;> simp

/-- Witness for C2 at a concrete idle state and a concrete page. -/
theorem loadMore_success_effects_witness :
    (loadMore (initState ([] : List Nat)) (.success [1, 2] true)).1.repositories.length
        = (initState ([] : List Nat)).repositories.length + [1, 2].length ∧
    (loadMore (initState ([] : List Nat)) (.success [1, 2] true)).1.currentPage
        = (initState ([] : List Nat)).currentPage + 1 ∧
    (loadMore (initState ([] : List Nat)) (.success [1, 2] true)).1.retryCount = 0 ∧
    (loadMore (initState ([] : List Nat)) (.success [1, 2] true)).1.loading = false ∧
    (loadMore (initState ([] : List Nat)) (.success [1, 2] true)).1.isRetrying
        = (initState ([] : List Nat)).isRetrying ∧
    (loadMore (initState ([] : List Nat)) (.success [1, 2] true)).2
        = some ((initState ([] : List Nat)).currentPage + 1) :=
  loadMore_success_effects (initState ([] : List Nat)) [1, 2] true rfl rfl

/-- Claim C6: `reset()` restores the state exactly to the initial
snapshot — `repositories` back to the captured initial list, `cursor =
1`, `loading = false`, `isRetrying = false` (status `Idle`), `error =
null`, `hasMore = true` (not exhausted), `retryCount = 0` — from every
prior state and with no guard. -/
theorem reset_restores_initial {α : Type} (initial : List α) (s : ScrollState α) :
    reset initial s = initState initial :=
  rfl

/-- Claim C3: after every successful `loadMore`, the exhausted flag is
exactly the negation of the page's `hasMore` (`hasMore` field equals
`pm`), so the 30-item floor override — forced exhaustion when the new
item count is ≥ 30 and the page said `hasMore = false` — holds, the
floor never forces exhaustion while the page still says `hasMore =
true`, and exhaustion implies the last successful fetch reported
`hasMore = false`.  Concretely, from 25 items, a page of 5 items with
`hasMore = false` yields 30 items and an exhausted state. -/
theorem loadMore_exhaustion :
    (∀ (α : Type) (s : ScrollState α) (data : List α) (pm : Bool),
      s.loading = false → s.hasMore = true →
        (loadMore s (.success data pm)).1.hasMore = pm ∧
        ((loadMore s (.success data pm)).1.repositories.length ≥ 30 ∧ pm = false →
          (loadMore s (.success data pm)).1.hasMore = false) ∧
        ((loadMore s (.success data pm)).1.hasMore = false → pm = false)) ∧
    (loadMore (initState (List.range 25))
        (.success [25, 26, 27, 28, 29] false)).1.repositories.length = 30 ∧
    (loadMore (initState (List.range 25))
        (.success [25, 26, 27, 28, 29] false)).1.hasMore = false := by
  refine ⟨?_, by decide, by decide⟩
  intro α s data pm hl hm
  have hstart : loadMoreStart s
      = ({ s with loading := true, error := none }, some (s.currentPage + 1)) := by
    simp [loadMoreStart, hl, hm]
  simp only [loadMore, hstart, loadMoreResume]
  split <;> simp_all

/-- Witness for C3's quantified part at a concrete idle state. -/
theorem loadMore_exhaustion_witness :
    (loadMore (initState ([] : List Nat)) (.success [9] true)).1.hasMore = true ∧
    ((loadMore (initState ([] : List Nat)) (.success [9] true)).1.repositories.length ≥ 30 ∧
        true = false →
      (loadMore (initState ([] : List Nat)) (.success [9] true)).1.hasMore = false) ∧
    ((loadMore (initState ([] : List Nat)) (.success [9] true)).1.hasMore = false →
      true = false) :=
  loadMore_exhaustion.1 Nat (initState []) [9] true rfl rfl

/-- Claim C4: a failing `loadMore` (guard passed, fetch rejected)
resolves rather than throws — in this embedding the failure branch
produces a state like every other branch — and that state has `error`
set to the thrown error's user-facing message (for a connectivity
failure, exactly the network-error text), `hasMore` (exhaustion),
`repositories`, `currentPage` and `retryCount` unchanged, and status
back to `Idle` (`loading = false`, `isRetrying` untouched), so
`canRetry` is true whenever `retryCount < maxRetries` and the call was
not nested inside `retry`. -/
theorem loadMore_failure_effects {α : Type} (s : ScrollState α) (e : APIError)
    (hl : s.loading = false) (hm : s.hasMore = true) :
    (loadMore s (.failure e)).1.error = some e.message ∧
    (loadMore s (.failure e)).1.hasMore = s.hasMore ∧
    (loadMore s (.failure e)).1.repositories = s.repositories ∧
    (loadMore s (.failure e)).1.currentPage = s.currentPage ∧
    (loadMore s (.failure e)).1.retryCount = s.retryCount ∧
    (loadMore s (.failure e)).1.loading = false ∧
    (loadMore s (.failure e)).1.isRetrying = s.isRetrying ∧
    (s.isRetrying = false → s.retryCount < maxRetries →
      canRetry (loadMore s (.failure e)).1 = true) ∧
    networkError.message
      = "Network error. Please check your internet connection and try again." := by
  have hstart : loadMoreStart s
      = ({ s with loading := true, error := none }, some (s.currentPage + 1)) := by
    simp [loadMoreStart, hl, hm]
  have hres : loadMore s (.failure e)
      = ({ s with error := some e.message, loading := false }, some (s.currentPage + 1)) := by
    simp [loadMore, hstart, loadMoreResume]
  exact ⟨by simp [hres], by simp [hres], by simp [hres], by simp [hres], by simp [hres],
    by simp [hres], by simp [hres],
    by intro hr hc; simp [hres, canRetry, hr, hc], by rfl⟩

/-- Witness for C4 at a concrete idle state and the network error. -/
theorem loadMore_failure_effects_witness :
    (loadMore (initState ([] : List Nat)) (.failure networkError)).1.error
        = some networkError.message ∧
    (loadMore (initState ([] : List Nat)) (.failure networkError)).1.hasMore
        = (initState ([] : List Nat)).hasMore ∧
    (loadMore (initState ([] : List Nat)) (.failure networkError)).1.repositories
        = (initState ([] : List Nat)).repositories ∧
    (loadMore (initState ([] : List Nat)) (.failure networkError)).1.currentPage
        = (initState ([] : List Nat)).currentPage ∧
    (loadMore (initState ([] : List Nat)) (.failure networkError)).1.retryCount
        = (initState ([] : List Nat)).retryCount ∧
    (loadMore (initState ([] : List Nat)) (.failure networkError)).1.loading = false ∧
    (loadMore (initState ([] : List Nat)) (.failure networkError)).1.isRetrying
        = (initState ([] : List Nat)).isRetrying ∧
    ((initState ([] : List Nat)).isRetrying = false →
      (initState ([] : List Nat)).retryCount < maxRetries →
      canRetry (loadMore (initState ([] : List Nat)) (.failure networkError)).1 = true) ∧
    networkError.message
      = "Network error. Please check your internet connection and try again." :=
  loadMore_failure_effects (initState ([] : List Nat)) networkError rfl rfl

/-- Claim C5: `retry` is a no-op whenever a retry is already in flight
or `retryCount` has reached `maxRetries` (= 3); when the guard passes,
the n-th call (with `retryCount = n - 1` beforehand) increments
`retryCount` to `n` — a failing attempt leaves it at `n` — and sleeps
exactly `min(1000 * 2^(n-1), 10000)` milliseconds before invoking
`loadMore`; and three consecutive failing `retry` calls drive
`retryCount` to 3, after which a fourth call is a no-op and `canRetry`
is false. -/
theorem retry_bounded_backoff :
    (∀ (α : Type) (s : ScrollState α) (o : FetchOutcome α),
      s.isRetrying = true ∨ s.retryCount ≥ maxRetries → retry s o = (s, none, none)) ∧
    (∀ (α : Type) (s : ScrollState α) (o : FetchOutcome α),
      s.isRetrying = false → s.retryCount < maxRetries →
        (retry s o).2.1 = some (min (1000 * 2 ^ ((s.retryCount + 1) - 1)) 10000)) ∧
    (∀ (α : Type) (s : ScrollState α) (e : APIError),
      s.isRetrying = false → s.retryCount < maxRetries →
        (retry s (.failure e)).1.retryCount = s.retryCount + 1) ∧
    (retryFail1.retryCount = 1 ∧ retryFail2.retryCount = 2 ∧ retryFail3.retryCount = 3 ∧
      retry retryFail3 (.failure networkError) = (retryFail3, none, none) ∧
      canRetry retryFail3 = false) := by
  refine ⟨?_, ?_, ?_, by decide⟩
  · intro α s o h
    rcases h with h | h
    · simp [retry, h]
    · simp [retry, h]
  · intro α s o hr hc
    simp [retry, hr, Nat.not_le.mpr hc, getRetryDelay]
  · intro α s e hr hc
    simp [retry, hr, Nat.not_le.mpr hc, loadMore_failure_retryCount]

/-- Witness for C5's guarded parts: a fourth consecutive `retry` and a
mid-retry `retry` are both no-ops, at concrete states. -/
theorem retry_bounded_backoff_witness :
    retry { initState ([] : List Nat) with isRetrying := true }
        (.failure networkError)
      = ({ initState ([] : List Nat) with isRetrying := true }, none, none) :=
  retry_bounded_backoff.1 Nat _ _ (Or.inl rfl)

/-- Claim C7, counterexample.  The claim states that a fetch response
from a `loadMore` started before a `reset()` is ignored when it arrives
after the `reset()`.  The source has no generation counter: run
`loadMoreStart` from the fresh state (the guard passes and page 2 is
requested), `reset` while the fetch is in flight, and let the stale
response (one item, `7`) arrive — its continuation appends the stale
item to the freshly reset (empty) list and moves the cursor from the
reset value 1 to the stale call's page 2. -/
theorem stale_response_applied_after_reset :
    (loadMoreStart (initState ([] : List Nat))).2 = some 2 ∧
    (loadMoreResume (reset [] (loadMoreStart (initState ([] : List Nat))).1) 2
        (.success [7] true)).repositories = [7] ∧
    (loadMoreResume (reset [] (loadMoreStart (initState ([] : List Nat))).1) 2
        (.success [7] true)).currentPage = 2 := by
  decide

/-- Claim C7, amended: the controller has no generation counter and
cannot distinguish stale responses, so a successful fetch response from
a `loadMore` started before `reset()` that arrives afterwards is
applied to the post-reset state — its items are appended to the restored
initial snapshot and the cursor is set to the stale call's page
number. -/
theorem stale_response_resume_after_reset {α : Type} (initial : List α)
    (sPending : ScrollState α) (nextPage : Nat) (data : List α) (pm : Bool) :
    (loadMoreResume (reset initial sPending) nextPage (.success data pm)).repositories
        = initial ++ data ∧
    (loadMoreResume (reset initial sPending) nextPage (.success data pm)).currentPage
        = nextPage := by
  simp only [loadMoreResume, reset]
  constructor
  · split <;> rfl
  · split <;> rfl

/-- Claim C8: for every page successfully returned by
`fetchRepositories` (valid parameters, array body), `hasMore` is true
exactly when the page was full — the returned item count equals the
requested `perPage` — and `nextPage` is `page + 1` when `hasMore` is
true and null otherwise. -/
theorem fetch_hasMore_iff_full (page perPage : Int) (data : List JVal)
    (resp : GitHubAPIResponse)
    (h1 : 1 ≤ page) (h2 : 1 ≤ perPage) (h3 : perPage ≤ 100)
    (h : fetchRepositories page perPage (.ok (.jarr data)) = .ok resp) :
    (resp.hasMore = true ↔ (resp.data.length : Int) = perPage) ∧
    resp.nextPage = (if resp.hasMore = true then some (page + 1) else none) := by
  simp only [fetchRepositories] at h
  rw [if_neg (by omega)] at h
  injection h with h
  subst h
  simp [beq_iff_eq]

/-- Witness for C8 at `page = 1`, `perPage = 1` and a single valid
repository object: the page is full, so `hasMore = true` and
`nextPage = 2`. -/
theorem fetch_hasMore_iff_full_witness :
    (({ data := [goodRepo], hasMore := true, nextPage := some 2, totalCount := 1 }
          : GitHubAPIResponse).hasMore = true ↔
      ((({ data := [goodRepo], hasMore := true, nextPage := some 2, totalCount := 1 }
          : GitHubAPIResponse).data.length : Int) = 1)) ∧
    ({ data := [goodRepo], hasMore := true, nextPage := some 2, totalCount := 1 }
        : GitHubAPIResponse).nextPage
      = (if ({ data := [goodRepo], hasMore := true, nextPage := some 2, totalCount := 1 }
            : GitHubAPIResponse).hasMore = true then some (1 + 1) else none) :=
  fetch_hasMore_iff_full 1 1 [goodRepo] _ (by omega) (by omega) (by omega) (by rfl)

/-- Claim C9: an invalid call — `page < 1` or `perPage` outside
`[1, 100]` — fails with the classified `validation_error` whose
user-facing message is exactly "Invalid request parameters.", and the
result is the same for every possible network behaviour `net`: the
validation happens before the request is issued. -/
theorem fetch_invalid_params (page perPage : Int) (net : NetResult)
    (h : page < 1 ∨ perPage < 1 ∨ perPage > 100) :
    fetchRepositories page perPage net
      = .error { type := .validation_error, message := "Invalid request parameters.",
                 statusCode := some 422, retryAfter := none } := by
  unfold fetchRepositories
  rw [if_pos h]
  rfl

/-- Witness for C9 at `page = 0`. -/
theorem fetch_invalid_params_witness :
    fetchRepositories 0 10 (.ok .jnull)
      = .error { type := .validation_error, message := "Invalid request parameters.",
                 statusCode := some 422, retryAfter := none } :=
  fetch_invalid_params 0 10 (.ok .jnull) (Or.inl (by omega))

/-- Claim C10: on a successful fetch the returned `data` is exactly the
raw array filtered through `validateRepository` — raw elements failing
the schema are silently dropped and every returned element satisfies
the schema — and `hasMore` is computed from the post-filter count.
Concretely, `goodRepo` passes validation, `badRepo` fails it, and a raw
page of exactly `perPage = 2` elements containing the invalid one
yields only the valid repository with `hasMore = false` and `nextPage =
null`. -/
theorem fetch_filters_invalid :
    (∀ (page perPage : Int) (data : List JVal) (resp : GitHubAPIResponse),
      1 ≤ page → 1 ≤ perPage → perPage ≤ 100 →
      fetchRepositories page perPage (.ok (.jarr data)) = .ok resp →
        resp.data = data.filter validateRepository ∧
        (∀ r ∈ resp.data, validateRepository r = true) ∧
        resp.hasMore = (((data.filter validateRepository).length : Int) == perPage)) ∧
    validateRepository goodRepo = true ∧
    validateRepository badRepo = false ∧
    fetchRepositories 1 2 (.ok (.jarr [goodRepo, badRepo]))
      = .ok { data := [goodRepo], hasMore := false, nextPage := none, totalCount := 1 } := by
  refine ⟨?_, by rfl, by rfl, by rfl⟩
  intro page perPage data resp h1 h2 h3 h
  simp only [fetchRepositories] at h
  rw [if_neg (by omega)] at h
  injection h with h
  subst h
  refine ⟨rfl, ?_, rfl⟩
  intro r hr
  exact List.of_mem_filter hr

/-- Witness for C10's quantified part at the concrete two-element raw
page. -/
theorem fetch_filters_invalid_witness :
    ({ data := [goodRepo], hasMore := false, nextPage := none, totalCount := 1 }
        : GitHubAPIResponse).data = [goodRepo, badRepo].filter validateRepository ∧
    (∀ r ∈ ({ data := [goodRepo], hasMore := false, nextPage := none, totalCount := 1 }
        : GitHubAPIResponse).data, validateRepository r = true) ∧
    ({ data := [goodRepo], hasMore := false, nextPage := none, totalCount := 1 }
        : GitHubAPIResponse).hasMore
      = ((([goodRepo, badRepo].filter validateRepository).length : Int) == 2) :=
  fetch_filters_invalid.1 1 2 [goodRepo, badRepo] _ (by omega) (by omega) (by omega) (by rfl)

end GitHubInfiniteScroll
